import Mathlib

/-!
Shallow embedding of the blogicum blog application's view layer
(`src/blogicum/blog/views.py`) and the query/pagination helpers it is
built from.  The relational store is modelled as explicit lists of rows,
a request as a record of the pieces of the HTTP request the views read,
and each Django view function as a Lean function from the database and
the request to (a possibly updated database and) a response value.
Machine-specific concerns (sessions, templates, the ORM's SQL) are out
of scope; what is kept is exactly the row filtering, ordering,
pagination, authorization checks and mutations the views perform.
-/

namespace Blogicum

/-- A user is identified by their username (the `User` model is
framework-provided; the views only compare users for identity and look
them up by username). -/
abbrev Username := String

/-- Row of the `Category` table: id, unique slug, published flag. -/
structure Category where
  id : Nat
  slug : String
  is_published : Bool
deriving DecidableEq

/-- Row of the `Post` table: id, title, text, publication timestamp
(modelled as a natural number), published flag, author, optional
category and location foreign keys. -/
structure Post where
  id : Nat
  title : String
  text : String
  pub_date : Nat
  is_published : Bool
  author : Username
  category : Option Nat
  location : Option Nat
deriving DecidableEq

/-- Row of the `Comment` table: id, text, author, parent post. -/
structure Comment where
  id : Nat
  text : String
  author : Username
  post : Nat
deriving DecidableEq

/-- The relational store: the tables the views read and write. -/
structure DB where
  posts : List Post
  categories : List Category
  comments : List Comment
  users : List Username
deriving DecidableEq

/-- The requesting principal: anonymous, or authenticated as a user. -/
inductive Requester where
  | anon
  | auth (u : Username)
deriving DecidableEq

/-- `request.user == u` for a concrete user `u`: an anonymous requester
equals no stored user. -/
def Requester.is (r : Requester) (name : Username) : Bool :=
  match r with
  | .anon => false
  | .auth u => u = name

/-- The `page` query parameter as the paginator sees it: absent,
present but not an integer, or an integer. -/
inductive PageArg where
  | absent
  | notInt
  | int (n : Int)
deriving DecidableEq

/-- Outcome of binding and validating a form against the request body:
either valid with its cleaned data, or invalid (which also covers the
unbound form produced by `Form(request.POST or None)` on a GET). -/
inductive FormInput (α : Type) where
  | valid (data : α)
  | invalid
deriving DecidableEq

/-- Modelled from the spec: `PostForm` (defined in the repository's
`forms.py`, which is not under `src/`) validates and binds the
user-editable fields of a post — everything except the id and the
author, which `create_post` assigns from the request. -/
structure PostData where
  title : String
  text : String
  pub_date : Nat
  is_published : Bool
  category : Option Nat
  location : Option Nat
deriving DecidableEq

/-- The pieces of the HTTP request the blog views read: the requesting
principal, the method, the `page` query parameter, and the outcome of
binding `PostForm` / `CommentForm` to the request body (`CommentForm`,
modelled from the spec, binds the comment's text). -/
structure Request where
  user : Requester
  method : String
  pageParam : PageArg
  postForm : FormInput PostData
  commentForm : FormInput String
deriving DecidableEq

/-- Where a redirect points. -/
inductive Target where
  | index
  | postDetail (post_id : Nat)
  | profilePage (username : Username)
  | login
deriving DecidableEq

/-- A page object as Django's paginator returns it: the sliced items,
the resolved 1-based page number and the total number of pages. -/
structure PageObj where
  object_list : List Post
  number : Nat
  num_pages : Nat
deriving DecidableEq

/-- The observable response of a view: a rendered template together
with the data of its context that the views compute, a redirect, or an
HTTP 404 with its message. -/
inductive Response where
  | renderIndex (page_obj : PageObj)
  | renderPostList (category : Category) (page_obj : PageObj)
  | renderPostDetail (post : Post) (comments : List Comment)
  | renderCreate
  | renderComment (comment : Comment)
  | renderProfile (profileUser : Username) (page_obj : PageObj)
  | redirect (t : Target)
  | notFound (msg : String)
deriving DecidableEq

/-- Whether a response is an HTTP 404. -/
def Response.is404 : Response → Bool
  | .notFound _ => true
  | _ => false

/-- Whether a response renders a template (as opposed to redirecting
or signalling an error). -/
def Response.isRender : Response → Bool
  | .redirect _ => false
  | .notFound _ => false
  | _ => true

/-! ## Table lookups and mutations -/

/-- `Post.objects.get(id=post_id)` as a partial lookup. -/
def findPost (db : DB) (post_id : Nat) : Option Post :=
  db.posts.find? (fun p => p.id == post_id)

/-- `Comment.objects.get(id=comment_id)` as a partial lookup. -/
def findComment (db : DB) (comment_id : Nat) : Option Comment :=
  db.comments.find? (fun c => c.id == comment_id)

/-- Category lookup by primary key, backing the
`category__is_published` join. -/
def findCategory (db : DB) (category_id : Nat) : Option Category :=
  db.categories.find? (fun c => c.id == category_id)

/-- The `category__is_published=True` join condition: the post has a
category, that category row exists, and it is published.  A post with
no category never satisfies it. -/
def categoryPublished (db : DB) (p : Post) : Bool :=
  match p.category with
  | none => false
  | some cid =>
    match findCategory db cid with
    | none => false
    | some c => c.is_published

/-- The database assigns a fresh primary key on insert: one more than
the largest key in use. -/
def freshPostId (db : DB) : Nat :=
  (db.posts.map Post.id).foldr Nat.max 0 + 1

/-- Fresh primary key for a new comment row. -/
def freshCommentId (db : DB) : Nat :=
  (db.comments.map Comment.id).foldr Nat.max 0 + 1

/-- `form.save()` on a bound `PostForm` with an instance: overwrite the
user-editable fields, keep id and author. -/
def applyPostForm (d : PostData) (p : Post) : Post :=
  { p with
    title := d.title
    text := d.text
    pub_date := d.pub_date
    is_published := d.is_published
    category := d.category
    location := d.location }

/-- Replace the post row with the given id by the updated row. -/
def updatePost (db : DB) (p : Post) : DB :=
  { db with posts := db.posts.map (fun x => if x.id == p.id then p else x) }

/-- Replace the comment row with the given id by the updated row. -/
def updateComment (db : DB) (c : Comment) : DB :=
  { db with comments := db.comments.map (fun x => if x.id == c.id then c else x) }

/-! ## Query layer (`get_posts`, `get_filtered_posts_qs`, ordering) -/

/-- The comparison `order_by('-pub_date')` sorts by: `a` may precede
`b` exactly when `a.pub_date ≥ b.pub_date`.  It looks at no column
other than `pub_date`, so it never separates posts with equal
`pub_date`. -/
def pubDateDesc (a b : Post) : Bool :=
  b.pub_date ≤ a.pub_date

/-- `order_by('-pub_date')`: arrange the rows in order of descending
publication date. -/
def orderByPubDateDesc (l : List Post) : List Post :=
  l.mergeSort pubDateDesc

/-- The public-visibility conjunction of `get_filtered_posts_qs`:
`is_published=True, category__is_published=True, pub_date__lte=now`. -/
def publicVisible (db : DB) (now : Nat) (p : Post) : Bool :=
  p.is_published && categoryPublished db p && p.pub_date ≤ now

/-- `get_filtered_posts_qs()`: all posts satisfying the
public-visibility conjunction (an unordered queryset, kept in table
order). -/
def get_filtered_posts_qs (db : DB) (now : Nat) : List Post :=
  db.posts.filter (publicVisible db now)

/-- `get_posts(**kwargs)`: posts filtered by the given predicate (the
keyword equality filters), ordered by publication date descending.
The `select_related` joins and the `comment_count` annotation add
columns but change neither the rows selected nor their order, so they
are not part of the row-level model. -/
def get_posts (db : DB) (filt : Post → Bool) : List Post :=
  orderByPubDateDesc (db.posts.filter filt)

/-! ## Pagination -/

/-- Page size constant `NUMBER_OF_PAGINATOR_PAGES`. -/
def NUMBER_OF_PAGINATOR_PAGES : Nat := 10

/-- Modelled from the spec: Django's `Paginator.num_pages` with default
settings — the number of pages needed for `count` items at `per_page`
each, and at least one (the first page may be empty). -/
def numPages (count per_page : Nat) : Nat :=
  Nat.max 1 ((count + per_page - 1) / per_page)

/-- Modelled from the spec: Django's `Paginator.get_page` fallback —
an absent or non-integer page number resolves to the first page, and
an integer outside the valid range (past the last page, or below 1)
resolves to the last page; the returned page holds the corresponding
slice of the queryset. -/
def resolvePageNumber (np : Nat) (arg : PageArg) : Nat :=
  match arg with
  | .absent => 1
  | .notInt => 1
  | .int n => if n < 1 then np else if n > (np : Int) then np else n.toNat

/-- The page object returned: the resolved page number, the total
number of pages, and the corresponding ten-item slice of the
queryset. -/
def getPage (qs : List Post) (per_page : Nat) (arg : PageArg) : PageObj :=
  { object_list :=
      (qs.drop ((resolvePageNumber (numPages qs.length per_page) arg - 1) * per_page)).take
        per_page
    number := resolvePageNumber (numPages qs.length per_page) arg
    num_pages := numPages qs.length per_page }

/-- `get_paginated_page(request, queryset, number_of_pages=10)`. -/
def get_paginated_page (req : Request) (qs : List Post)
    (number_of_pages : Nat := NUMBER_OF_PAGINATOR_PAGES) : PageObj :=
  getPage qs number_of_pages req.pageParam

/-! ## View handlers -/

/-- The queryset `index` builds:
`get_filtered_posts_qs().annotate(...).order_by('-pub_date')`. -/
def indexQueryset (db : DB) (now : Nat) : List Post :=
  orderByPubDateDesc (get_filtered_posts_qs db now)

/-- `index(request)`: the public feed, paginated. -/
def index (db : DB) (now : Nat) (req : Request) : Response :=
  .renderIndex (get_paginated_page req (indexQueryset db now))

/-- The queryset `category_posts` builds:
`get_filtered_posts_qs().order_by('-pub_date').filter(category=category)`. -/
def categoryQueryset (db : DB) (now : Nat) (c : Category) : List Post :=
  (orderByPubDateDesc (get_filtered_posts_qs db now)).filter
    (fun p => p.category == some c.id)

/-- `category_posts(request, category_slug)`:
`get_object_or_404(Category, slug=category_slug, is_published=True)`,
then the category's publicly visible posts, paginated. -/
def category_posts (db : DB) (now : Nat) (req : Request)
    (category_slug : String) : Response :=
  match db.categories.find? (fun c => c.slug == category_slug && c.is_published) with
  | none => .notFound "No Category matches the given query."
  | some category =>
    .renderPostList category (get_paginated_page req (categoryQueryset db now category))

/-- The comments shown on a post's detail page:
`Comment.objects.filter(post=post)` in table order. -/
def commentsFor (db : DB) (p : Post) : List Comment :=
  db.comments.filter (fun c => c.post == p.id)

/-- `post_detail(request, post_id)`: fetch the post by id (404 with
message "Пост не найден" when absent); raise the same 404 when the
post is unpublished and the requester is not its author; otherwise
render the post with its comments. -/
def post_detail (db : DB) (req : Request) (post_id : Nat) : Response :=
  match findPost db post_id with
  | none => .notFound "Пост не найден"
  | some post =>
    if !post.is_published && !(req.user.is post.author) then
      .notFound "Пост не найден"
    else
      .renderPostDetail post (commentsFor db post)

/-- `create_post(request)` (`@login_required`): on a valid form, save a
new post with the requester as author and redirect to their profile;
otherwise re-render the creation form. -/
def create_post (db : DB) (req : Request) : DB × Response :=
  match req.user with
  | .anon => (db, .redirect .login)
  | .auth user =>
    match req.postForm with
    | .valid d =>
      let post : Post :=
        { id := freshPostId db
          title := d.title
          text := d.text
          pub_date := d.pub_date
          is_published := d.is_published
          author := user
          category := d.category
          location := d.location }
      ({ db with posts := db.posts ++ [post] }, .redirect (.profilePage user))
    | .invalid => (db, .renderCreate)

/-- `edit_post(request, post_id)` (`@login_required`): fetch the post
(404 when absent); a non-author is silently redirected to the post's
detail page; the author saves a valid form and is redirected to the
detail page, or is shown the form again. -/
def edit_post (db : DB) (req : Request) (post_id : Nat) : DB × Response :=
  match req.user with
  | .anon => (db, .redirect .login)
  | .auth user =>
    match findPost db post_id with
    | none => (db, .notFound "No Post matches the given query.")
    | some post =>
      if user ≠ post.author then
        (db, .redirect (.postDetail post_id))
      else
        match req.postForm with
        | .valid d =>
          (updatePost db (applyPostForm d post), .redirect (.postDetail post_id))
        | .invalid => (db, .renderCreate)

/-- `delete_post(request, post_id)` (`@login_required`): fetch the post
(404 when absent); a non-author is silently redirected to the post's
detail page; on POST the author's post is deleted (comments cascade)
and the author is redirected to the feed; otherwise the confirmation
form is rendered. -/
def delete_post (db : DB) (req : Request) (post_id : Nat) : DB × Response :=
  match req.user with
  | .anon => (db, .redirect .login)
  | .auth user =>
    match findPost db post_id with
    | none => (db, .notFound "No Post matches the given query.")
    | some post =>
      if user ≠ post.author then
        (db, .redirect (.postDetail post_id))
      else if req.method == "POST" then
        ({ db with
            posts := db.posts.filter (fun p => p.id ≠ post.id)
            comments := db.comments.filter (fun c => c.post ≠ post.id) },
         .redirect .index)
      else
        (db, .renderCreate)

/-- `add_comment(request, post_id)` (`@login_required`): fetch the post
(404 when absent); on a valid form, save a new comment with the
requester as author and the post set; in every case redirect to the
post's detail page (the redirect sits outside the validity check). -/
def add_comment (db : DB) (req : Request) (post_id : Nat) : DB × Response :=
  match req.user with
  | .anon => (db, .redirect .login)
  | .auth user =>
    match findPost db post_id with
    | none => (db, .notFound "No Post matches the given query.")
    | some post =>
      match req.commentForm with
      | .valid text =>
        let c : Comment :=
          { id := freshCommentId db, text := text, author := user, post := post.id }
        ({ db with comments := db.comments ++ [c] }, .redirect (.postDetail post_id))
      | .invalid => (db, .redirect (.postDetail post_id))

/-- `edit_comment(request, post_id, comment_id)` (`@login_required`):
fetch the comment by `comment_id` alone (404 when absent; `post_id` is
never checked against the comment); a non-author is silently
redirected to the detail page of the `post_id` from the URL; the
author saves a valid form and is redirected there, or is shown the
form again. -/
def edit_comment (db : DB) (req : Request) (post_id comment_id : Nat) : DB × Response :=
  match req.user with
  | .anon => (db, .redirect .login)
  | .auth user =>
    match findComment db comment_id with
    | none => (db, .notFound "No Comment matches the given query.")
    | some comment =>
      if user ≠ comment.author then
        (db, .redirect (.postDetail post_id))
      else
        match req.commentForm with
        | .valid text =>
          (updateComment db { comment with text := text },
           .redirect (.postDetail post_id))
        | .invalid => (db, .renderComment comment)

/-- `delete_comment(request, post_id, comment_id)` (`@login_required`):
fetch the comment by `comment_id` alone (404 when absent; `post_id` is
never checked against the comment); a non-author is silently
redirected to the detail page of the `post_id` from the URL; on POST
the author's comment is deleted and they are redirected there;
otherwise the confirmation template is rendered. -/
def delete_comment (db : DB) (req : Request) (post_id comment_id : Nat) : DB × Response :=
  match req.user with
  | .anon => (db, .redirect .login)
  | .auth user =>
    match findComment db comment_id with
    | none => (db, .notFound "No Comment matches the given query.")
    | some comment =>
      if user ≠ comment.author then
        (db, .redirect (.postDetail post_id))
      else if req.method == "POST" then
        ({ db with comments := db.comments.filter (fun c => c.id ≠ comment.id) },
         .redirect (.postDetail post_id))
      else
        (db, .renderComment comment)

/-- The queryset `profile` builds: the target user's own listing,
`get_posts(author=profile)`, replaced for any other requester by
`get_filtered_posts_qs().filter(author=profile)...order_by('-pub_date')`. -/
def profileQueryset (db : DB) (now : Nat) (requester : Requester)
    (profileUser : Username) : List Post :=
  if requester.is profileUser then
    get_posts db (fun p => p.author == profileUser)
  else
    orderByPubDateDesc
      ((get_filtered_posts_qs db now).filter (fun p => p.author == profileUser))

/-- `profile(request, username)`: `get_object_or_404(User,
username=username)`, then the target's posts — all of them for the
target themselves, only the publicly visible ones for anyone else —
paginated. -/
def profile (db : DB) (now : Nat) (req : Request) (username : Username) : Response :=
  match db.users.find? (fun u => u == username) with
  | none => .notFound "No User matches the given query."
  | some profileUser =>
    .renderProfile profileUser
      (get_paginated_page req (profileQueryset db now req.user profileUser))

/-! ## Concrete example data (used by witnesses and counterexamples) -/

/-- A published category. -/
def exCatPub : Category := { id := 1, slug := "tech", is_published := true }

/-- An unpublished category, with slug "news". -/
def exCatUnpub : Category := { id := 2, slug := "news", is_published := false }

/-- A publicly visible post by alice (published, published category,
past publication date). -/
def exPost : Post :=
  { id := 1, title := "t1", text := "b1", pub_date := 3, is_published := true
    author := "alice", category := some 1, location := none }

/-- A post that is published but future-dated and in an unpublished
category: it fails the public-visibility conjunction at time 0 even
though its own `is_published` flag is true. -/
def exPostFuture : Post :=
  { id := 2, title := "t2", text := "b2", pub_date := 100, is_published := true
    author := "alice", category := some 2, location := none }

/-- An unpublished post by alice. -/
def exPostUnpub : Post :=
  { id := 3, title := "t3", text := "b3", pub_date := 1, is_published := false
    author := "alice", category := some 1, location := none }

/-- A comment by alice on post 1. -/
def exComment : Comment := { id := 1, text := "c1", author := "alice", post := 1 }

/-- The example database. -/
def exDB : DB :=
  { posts := [exPost, exPostFuture, exPostUnpub]
    categories := [exCatPub, exCatUnpub]
    comments := [exComment]
    users := ["alice", "bob"] }

/-- A GET request from bob, no page parameter, no valid form. -/
def reqBob : Request :=
  { user := .auth "bob", method := "GET", pageParam := .absent
    postForm := .invalid, commentForm := .invalid }

/-- A GET request from alice with both forms invalid. -/
def reqAliceInvalid : Request :=
  { user := .auth "alice", method := "GET", pageParam := .absent
    postForm := .invalid, commentForm := .invalid }

/-- A POST request from alice carrying a valid comment form. -/
def reqAliceComment : Request :=
  { user := .auth "alice", method := "POST", pageParam := .absent
    postForm := .invalid, commentForm := .valid "new" }

/-- An anonymous GET request. -/
def reqAnon : Request :=
  { user := .anon, method := "GET", pageParam := .absent
    postForm := .invalid, commentForm := .invalid }

/-- An anonymous GET request asking for page 999. -/
def req999 : Request :=
  { user := .anon, method := "GET", pageParam := .int 999
    postForm := .invalid, commentForm := .invalid }

/-! ## Helper lemmas on the ordering and lookups -/

theorem pubDateDesc_trans (a b c : Post) (hab : pubDateDesc a b = true)
    (hbc : pubDateDesc b c = true) : pubDateDesc a c = true := by
  simp only [pubDateDesc, decide_eq_true_eq] at *
  omega

theorem pubDateDesc_total (a b : Post) : (pubDateDesc a b || pubDateDesc b a) = true := by
  simp only [pubDateDesc, Bool.or_eq_true, decide_eq_true_eq]
  omega

/-- `order_by('-pub_date')` permutes the rows, so membership is
unchanged. -/
theorem mem_orderByPubDateDesc (l : List Post) (p : Post) :
    p ∈ orderByPubDateDesc l ↔ p ∈ l :=
  (List.mergeSort_perm l pubDateDesc).mem_iff

/-- The output of `order_by('-pub_date')` is pairwise nonincreasing in
`pub_date`. -/
theorem sorted_orderByPubDateDesc (l : List Post) :
    List.Pairwise (fun a b => pubDateDesc a b = true) (orderByPubDateDesc l) :=
  List.sorted_mergeSort pubDateDesc_trans pubDateDesc_total l

/-- Looking a member up by equality finds it. -/
theorem find?_beq_eq_some_of_mem {l : List Username} {u : Username} (hu : u ∈ l) :
    l.find? (fun x => x == u) = some u := by
  induction l with
  | nil => cases hu
  | cons a t ih =>
    rcases List.mem_cons.mp hu with h | h
    · subst h
      simp [List.find?_cons]
    · by_cases hau : a = u
      · subst hau
        simp [List.find?_cons]
      · have hb : (a == u) = false := by simpa using hau
        simp only [List.find?_cons, hb]
        exact ih h

/-! ## Claims -/

/-- C1: a post `P` of the database appears in the queryset `index`
builds from `get_filtered_posts_qs` if and only if `P.is_published` is
true, `P`'s category is published, and `P.pub_date` is at most the
current time. -/
theorem mem_indexQueryset_iff (db : DB) (now : Nat) (p : Post) (hp : p ∈ db.posts) :
    p ∈ indexQueryset db now ↔
      (p.is_published = true ∧ categoryPublished db p = true ∧ p.pub_date ≤ now) := by
  rw [indexQueryset, mem_orderByPubDateDesc, get_filtered_posts_qs, List.mem_filter]
  simp [publicVisible, hp, and_assoc]

/-- C1 witness: the concrete visible post is in the concrete index
queryset at time 5. -/
theorem mem_indexQueryset_iff_witness : exPost ∈ indexQueryset exDB 5 :=
  (mem_indexQueryset_iff exDB 5 exPost (by decide)).mpr (by decide)

/-- C2 (amended): for an existing post, `post_detail` renders the post
to its author unconditionally, and for any other requester it responds
404 exactly when the post's own `is_published` flag is false — the
category's published state and the publication date are not checked. -/
theorem post_detail_visibility (db : DB) (req : Request) (post_id : Nat) (post : Post)
    (h : findPost db post_id = some post) :
    (req.user.is post.author = true →
        post_detail db req post_id = .renderPostDetail post (commentsFor db post))
    ∧ (req.user.is post.author = false →
        ((post_detail db req post_id).is404 = true ↔ post.is_published = false)) := by
  unfold post_detail
  rw [h]
  constructor
  · intro ha
    simp [ha]
  · intro ha
    cases hpub : post.is_published <;> simp [ha, hpub, Response.is404]

/-- C2 witness: bob is not the author of the concrete published post,
and `post_detail` is a 404 for him exactly when the post is
unpublished (here it is published, so no 404). -/
theorem post_detail_visibility_witness :
    (post_detail exDB reqBob 1).is404 = true ↔ exPost.is_published = false :=
  (post_detail_visibility exDB reqBob 1 exPost (by decide)).2 (by decide)

/-- C2 counterexample: a post that is published but future-dated and in
an unpublished category fails the public-visibility conjunction at
time 0, yet `post_detail` renders it to a non-author requester instead
of responding 404. -/
theorem post_detail_conjunction_counterexample :
    publicVisible exDB 0 exPostFuture = false
    ∧ (reqBob.user.is exPostFuture.author) = false
    ∧ (post_detail exDB reqBob 2).is404 = false
    ∧ post_detail exDB reqBob 2 = .renderPostDetail exPostFuture [] := by decide

/-- C3: for an existing post and an existing comment, each of whose
authors differ from the authenticated requester, `edit_post`,
`delete_post`, `edit_comment` and `delete_comment` leave the database
unchanged and redirect to the post's detail page, whatever the method
or forms of the request. -/
theorem non_author_handlers_no_mutation (db : DB) (req : Request) (u : Username)
    (post_id comment_id : Nat) (post : Post) (comment : Comment)
    (hu : req.user = .auth u)
    (hp : findPost db post_id = some post) (hpa : post.author ≠ u)
    (hc : findComment db comment_id = some comment) (hca : comment.author ≠ u) :
    edit_post db req post_id = (db, .redirect (.postDetail post_id))
    ∧ delete_post db req post_id = (db, .redirect (.postDetail post_id))
    ∧ edit_comment db req post_id comment_id = (db, .redirect (.postDetail post_id))
    ∧ delete_comment db req post_id comment_id = (db, .redirect (.postDetail post_id)) := by
  unfold edit_post delete_post edit_comment delete_comment
  rw [hu]
  have hpa' : u ≠ post.author := Ne.symm hpa
  have hca' : u ≠ comment.author := Ne.symm hca
  simp [hp, hc, hpa', hca']

/-- C3 witness: bob can neither edit nor delete alice's post 1 or
comment 1; all four handlers leave the example database untouched and
redirect to the detail page. -/
theorem non_author_handlers_no_mutation_witness :
    edit_post exDB reqBob 1 = (exDB, .redirect (.postDetail 1))
    ∧ delete_post exDB reqBob 1 = (exDB, .redirect (.postDetail 1))
    ∧ edit_comment exDB reqBob 1 1 = (exDB, .redirect (.postDetail 1))
    ∧ delete_comment exDB reqBob 1 1 = (exDB, .redirect (.postDetail 1)) :=
  non_author_handlers_no_mutation exDB reqBob "bob" 1 1 exPost exComment rfl
    (by decide) (by decide) (by decide) (by decide)

/-- C4: for an existing user, the profile view renders that user's
page over the queryset `profileQueryset`; when the requester is the
user themselves that queryset holds every one of their posts
(published or not, past or future), and for any other requester it
holds exactly their publicly visible posts (published, published
category, publication date not in the future). -/
theorem profile_listing (db : DB) (now : Nat) (req : Request) (u : Username)
    (hu : u ∈ db.users) :
    profile db now req u
      = .renderProfile u (get_paginated_page req (profileQueryset db now req.user u))
    ∧ (req.user.is u = true →
        ∀ p, p ∈ profileQueryset db now req.user u ↔ p ∈ db.posts ∧ p.author = u)
    ∧ (req.user.is u = false →
        ∀ p, p ∈ profileQueryset db now req.user u ↔
          p ∈ db.posts ∧ p.author = u
          ∧ p.is_published = true ∧ categoryPublished db p = true ∧ p.pub_date ≤ now) := by
  refine ⟨?_, ?_, ?_⟩
  · unfold profile
    rw [find?_beq_eq_some_of_mem hu]
  · intro hself p
    rw [profileQueryset, if_pos hself, get_posts, mem_orderByPubDateDesc, List.mem_filter]
    simp
  · intro hother p
    rw [profileQueryset, if_neg (by simp [hother]), mem_orderByPubDateDesc,
      List.mem_filter, get_filtered_posts_qs, List.mem_filter]
    simp [publicVisible]
    tauto

/-- C4 witness: viewing alice's profile as bob, the response is the
profile page over the other-requester queryset, and the future-dated
post is not in it while the visible one is. -/
theorem profile_listing_witness :
    profile exDB 5 reqBob "alice"
      = .renderProfile "alice"
          (get_paginated_page reqBob (profileQueryset exDB 5 reqBob.user "alice"))
    ∧ ¬(exPostFuture ∈ profileQueryset exDB 5 reqBob.user "alice") :=
  ⟨(profile_listing exDB 5 reqBob "alice" (by decide)).1,
   fun hmem => by
    have h := ((profile_listing exDB 5 reqBob "alice" (by decide)).2.2 (by decide)
      exPostFuture).mp hmem
    revert h
    decide⟩

/-- C5 (amended): an invalid form never creates or modifies a record;
`create_post` and `edit_post` re-render the creation form and
`edit_comment` re-renders the comment form with the bound (invalid)
form, but `add_comment` redirects to the post's detail page instead of
re-rendering. -/
theorem invalid_form_no_mutation (db : DB) (req : Request) (u : Username)
    (post_id comment_id : Nat) (post : Post) (comment : Comment)
    (hu : req.user = .auth u)
    (hpf : req.postForm = .invalid) (hcf : req.commentForm = .invalid)
    (hp : findPost db post_id = some post) (hpa : post.author = u)
    (hc : findComment db comment_id = some comment) (hca : comment.author = u) :
    create_post db req = (db, .renderCreate)
    ∧ edit_post db req post_id = (db, .renderCreate)
    ∧ add_comment db req post_id = (db, .redirect (.postDetail post_id))
    ∧ edit_comment db req post_id comment_id = (db, .renderComment comment) := by
  unfold create_post edit_post add_comment edit_comment
  rw [hu]
  simp [hp, hc, hpf, hcf, hpa, hca]

/-- C5 witness: alice submits invalid forms against her own post and
comment; nothing is saved, the edit views re-render, and `add_comment`
redirects. -/
theorem invalid_form_no_mutation_witness :
    create_post exDB reqAliceInvalid = (exDB, .renderCreate)
    ∧ edit_post exDB reqAliceInvalid 1 = (exDB, .renderCreate)
    ∧ add_comment exDB reqAliceInvalid 1 = (exDB, .redirect (.postDetail 1))
    ∧ edit_comment exDB reqAliceInvalid 1 1 = (exDB, .renderComment exComment) :=
  invalid_form_no_mutation exDB reqAliceInvalid "alice" 1 1 exPost exComment rfl rfl rfl
    (by decide) (by decide) (by decide) (by decide)

/-- C5 counterexample: `add_comment` with an invalid form does not
re-render the comment form — it redirects to the post's detail page
(while indeed creating nothing). -/
theorem add_comment_invalid_redirects_counterexample :
    reqAliceInvalid.commentForm = FormInput.invalid
    ∧ (add_comment exDB reqAliceInvalid 1).1 = exDB
    ∧ ((add_comment exDB reqAliceInvalid 1).2).isRender = false
    ∧ (add_comment exDB reqAliceInvalid 1).2 = .redirect (.postDetail 1) := by decide

/-- C6: `get_paginated_page` returns the ten-item slice of the queryset
at the resolved page number (so never more than ten items); an absent
or non-integer `page` parameter resolves to page 1, and an integer
past the last page resolves to the last page instead of erroring. -/
theorem get_paginated_page_spec (req : Request) (qs : List Post) :
    (get_paginated_page req qs).object_list
      = (qs.drop (((get_paginated_page req qs).number - 1) * NUMBER_OF_PAGINATOR_PAGES)).take
          NUMBER_OF_PAGINATOR_PAGES
    ∧ (get_paginated_page req qs).object_list.length ≤ NUMBER_OF_PAGINATOR_PAGES
    ∧ (req.pageParam = .absent ∨ req.pageParam = .notInt →
        (get_paginated_page req qs).number = 1)
    ∧ (∀ n : Int, req.pageParam = .int n →
        ((get_paginated_page req qs).num_pages : Int) < n →
        (get_paginated_page req qs).number = (get_paginated_page req qs).num_pages) := by
  refine ⟨rfl, List.length_take_le _ _, ?_, ?_⟩
  · rintro (h | h) <;>
      simp [get_paginated_page, getPage, h, resolvePageNumber]
  · intro n hn hlt
    rw [get_paginated_page, getPage] at hlt ⊢
    simp only [hn, resolvePageNumber] at hlt ⊢
    rw [if_neg (by omega), if_pos hlt]

/-- C6 witness: requesting page 999 of a one-page feed yields the last
valid page (page 1 of 1). -/
theorem get_paginated_page_spec_witness :
    (get_paginated_page req999 [exPost]).number
      = (get_paginated_page req999 [exPost]).num_pages
    ∧ (get_paginated_page req999 [exPost]).num_pages = 1 :=
  ⟨(get_paginated_page_spec req999 [exPost]).2.2.2 999 rfl (by decide), by decide⟩

/-- C7: `category_posts` responds 404 when no category with the given
slug is both present and published; when such a category is found, it
renders the listing over `categoryQueryset`, which holds exactly that
category's publicly visible posts. -/
theorem category_posts_spec (db : DB) (now : Nat) (req : Request) (slug : String) :
    ((∀ c ∈ db.categories, ¬(c.slug = slug ∧ c.is_published = true)) →
        (category_posts db now req slug).is404 = true)
    ∧ (∀ c, db.categories.find? (fun x => x.slug == slug && x.is_published) = some c →
        category_posts db now req slug
          = .renderPostList c (get_paginated_page req (categoryQueryset db now c))
        ∧ ∀ p, p ∈ categoryQueryset db now c ↔
            p ∈ db.posts ∧ p.category = some c.id
            ∧ p.is_published = true ∧ categoryPublished db p = true ∧ p.pub_date ≤ now) := by
  constructor
  · intro hnone
    have h : db.categories.find? (fun x => x.slug == slug && x.is_published) = none := by
      rw [List.find?_eq_none]
      intro x hx
      have := hnone x hx
      simp only [Bool.and_eq_true, beq_iff_eq]
      tauto
    rw [category_posts, h]
    rfl
  · intro c hc
    refine ⟨by rw [category_posts, hc], ?_⟩
    intro p
    rw [categoryQueryset, List.mem_filter, mem_orderByPubDateDesc,
      get_filtered_posts_qs, List.mem_filter]
    simp [publicVisible]
    tauto

/-- C7 witness: the slug "news" names an existing but unpublished
category of the example database, and `category_posts` is a 404. -/
theorem category_posts_spec_witness :
    (category_posts exDB 0 reqAnon "news").is404 = true :=
  (category_posts_spec exDB 0 reqAnon "news").1 (by decide)

/-- C8: every listing queryset — the index feed, a category listing, a
profile listing (either branch), and any `get_posts` result — is
pairwise ordered by `pub_date` descending; and the comparison
`order_by('-pub_date')` uses holds in both directions between posts
with equal `pub_date`, so it applies no secondary tie-break and leaves
their relative order unconstrained. -/
theorem listings_sorted (db : DB) (now : Nat) (c : Category) (requester : Requester)
    (u : Username) (filt : Post → Bool) :
    List.Pairwise (fun a b => pubDateDesc a b = true) (indexQueryset db now)
    ∧ List.Pairwise (fun a b => pubDateDesc a b = true) (categoryQueryset db now c)
    ∧ List.Pairwise (fun a b => pubDateDesc a b = true) (profileQueryset db now requester u)
    ∧ List.Pairwise (fun a b => pubDateDesc a b = true) (get_posts db filt)
    ∧ (∀ a b : Post, a.pub_date = b.pub_date →
        pubDateDesc a b = true ∧ pubDateDesc b a = true) := by
  refine ⟨sorted_orderByPubDateDesc _,
    List.Pairwise.filter _ (sorted_orderByPubDateDesc _), ?_, ?_, ?_⟩
  · rw [profileQueryset]
    split
    · rw [get_posts]
      exact sorted_orderByPubDateDesc _
    · exact sorted_orderByPubDateDesc _
  · rw [get_posts]
    exact sorted_orderByPubDateDesc _
  · intro a b h
    constructor <;> simp [pubDateDesc, h]

/-- C8 witness: the no-tie-break clause applied to a concrete post
against itself. -/
theorem listings_sorted_witness :
    pubDateDesc exPost exPost = true ∧ pubDateDesc exPost exPost = true :=
  (listings_sorted exDB 5 exCatPub .anon "alice" (fun _ => true)).2.2.2.2 exPost exPost rfl

/-- C9: `edit_comment` and `delete_comment` fetch the comment by
`comment_id` alone and never compare it with `post_id`: for a comment
authored by the requester, a valid edit saves and a POST delete
removes the comment, and both redirect to the detail page of whatever
`post_id` the URL carried — even when the comment belongs to a
different post (no relation between `post_id` and `comment.post` is
required below, nor even that a post with id `post_id` exists). -/
theorem comment_handlers_ignore_post_mismatch (db : DB) (req : Request) (u : Username)
    (post_id comment_id : Nat) (comment : Comment) (text : String)
    (hu : req.user = .auth u)
    (hc : findComment db comment_id = some comment) (hca : comment.author = u) :
    (req.commentForm = .valid text →
      edit_comment db req post_id comment_id
        = (updateComment db { comment with text := text }, .redirect (.postDetail post_id)))
    ∧ (req.method = "POST" →
      delete_comment db req post_id comment_id
        = ({ db with comments := db.comments.filter (fun x => x.id ≠ comment.id) },
           .redirect (.postDetail post_id))) := by
  unfold edit_comment delete_comment
  rw [hu]
  constructor
  · intro hf
    simp [hc, hca, hf]
  · intro hm
    simp [hc, hca, hm]

/-- C9 witness: alice's comment 1 belongs to post 1, yet editing and
deleting it through URLs naming post 7 (which does not even exist)
succeed and redirect to post 7's detail page. -/
theorem comment_handlers_ignore_post_mismatch_witness :
    exComment.post ≠ 7
    ∧ findPost exDB 7 = none
    ∧ edit_comment exDB reqAliceComment 7 1
        = (updateComment exDB { exComment with text := "new" }, .redirect (.postDetail 7))
    ∧ delete_comment exDB reqAliceComment 7 1
        = ({ exDB with comments := exDB.comments.filter (fun x => x.id ≠ exComment.id) },
           .redirect (.postDetail 7)) :=
  ⟨by decide, by decide,
   (comment_handlers_ignore_post_mismatch exDB reqAliceComment "alice" 7 1 exComment "new"
      rfl (by decide) rfl).1 rfl,
   (comment_handlers_ignore_post_mismatch exDB reqAliceComment "alice" 7 1 exComment "new"
      rfl (by decide) rfl).2 rfl⟩

/-- C10: to a requester who is not its author, an existing unpublished
post is indistinguishable through `post_detail` from a post id that
matches nothing: the two responses are equal (the same 404). -/
theorem unpublished_indistinguishable_from_absent (db : DB) (req : Request)
    (id1 id2 : Nat) (post : Post)
    (h1 : findPost db id1 = some post) (hpub : post.is_published = false)
    (hauth : req.user.is post.author = false)
    (h2 : findPost db id2 = none) :
    post_detail db req id1 = post_detail db req id2 := by
  unfold post_detail
  rw [h1, h2]
  simp [hpub, hauth]

/-- C10 witness: bob's view of alice's unpublished post 3 equals his
view of the nonexistent post 99. -/
theorem unpublished_indistinguishable_witness :
    post_detail exDB reqBob 3 = post_detail exDB reqBob 99 :=
  unpublished_indistinguishable_from_absent exDB reqBob 3 99 exPostUnpub
    (by decide) rfl (by decide) (by decide)

end Blogicum
